import Mathlib

/-
Verification of the AetherWave Studio credit/entitlement accounting subsystem.

The definitions below are a shallow embedding of the TypeScript source:
  - shared/schema.ts        : plan catalog, service cost table, credit bundles
  - server/storage.ts       : MemStorage.checkCredits / MemStorage.deductCredits
  - server/routes.ts        : the /api/generate-music, /api/upload-cover-music,
                              /api/user/credits/check-reset and
                              /api/user/credits/deduct handlers.
JavaScript numbers holding credit amounts are modelled as Int (all values in
play are integers); timestamps (Date.getTime()) are modelled as Int
milliseconds since the epoch.
-/

namespace AetherWave

/-- schema.ts `PlanType = z.enum(['free', 'studio', 'creator', 'all_access'])`. -/
inductive PlanType
  | free
  | studio
  | creator
  | all_access
  deriving DecidableEq

/-- schema.ts `VideoResolution = z.enum(['720p', '1080p', '4k'])`. -/
inductive VideoResolution
  | r720p
  | r1080p
  | r4k
  deriving DecidableEq

/-- schema.ts `ImageEngine` enum. -/
inductive ImageEngine
  | dalle2
  | dalle3
  | flux
  | midjourney
  | stableDiffusion
  deriving DecidableEq

/-- schema.ts `MusicModel = z.enum(['V3_5', 'V4', 'V4_5', 'V4_5PLUS', 'V5'])`. -/
inductive MusicModel
  | V3_5
  | V4
  | V4_5
  | V4_5PLUS
  | V5
  deriving DecidableEq

/-- schema.ts `ServiceType` enum. -/
inductive ServiceType
  | music_generation
  | video_generation
  | image_generation
  | wav_conversion
  deriving DecidableEq

/-- schema.ts `maxCreditsPerDay: number | 'unlimited'`. -/
inductive MaxCreditsPerDay
  | metered (n : Int)
  | unlimited
  deriving DecidableEq

/-- schema.ts `interface PlanFeatures`. -/
structure PlanFeatures where
  musicGeneration : Bool
  videoGeneration : Bool
  imageGeneration : Bool
  wavConversion : Bool
  allowedVideoResolutions : List VideoResolution
  allowedImageEngines : List ImageEngine
  allowedMusicModels : List MusicModel
  maxCreditsPerDay : MaxCreditsPerDay
  commercialLicense : Bool
  apiAccess : Bool
  deriving DecidableEq

/-- schema.ts `PLAN_FEATURES`. -/
def PLAN_FEATURES : PlanType → PlanFeatures
  | .free =>
    { musicGeneration := true
      videoGeneration := true
      imageGeneration := true
      wavConversion := false
      allowedVideoResolutions := [.r720p]
      allowedImageEngines := [.dalle2]
      allowedMusicModels := [.V3_5, .V4]
      maxCreditsPerDay := .metered 50
      commercialLicense := false
      apiAccess := false }
  | .studio =>
    { musicGeneration := true
      videoGeneration := true
      imageGeneration := true
      wavConversion := true
      allowedVideoResolutions := [.r720p, .r1080p, .r4k]
      allowedImageEngines := [.dalle2, .dalle3, .flux, .midjourney, .stableDiffusion]
      allowedMusicModels := [.V3_5, .V4, .V4_5, .V4_5PLUS, .V5]
      maxCreditsPerDay := .unlimited
      commercialLicense := true
      apiAccess := false }
  | .creator =>
    { musicGeneration := true
      videoGeneration := true
      imageGeneration := true
      wavConversion := true
      allowedVideoResolutions := [.r720p, .r1080p, .r4k]
      allowedImageEngines := [.dalle2, .dalle3, .flux, .midjourney, .stableDiffusion]
      allowedMusicModels := [.V3_5, .V4, .V4_5, .V4_5PLUS, .V5]
      maxCreditsPerDay := .unlimited
      commercialLicense := true
      apiAccess := false }
  | .all_access =>
    { musicGeneration := true
      videoGeneration := true
      imageGeneration := true
      wavConversion := true
      allowedVideoResolutions := [.r720p, .r1080p, .r4k]
      allowedImageEngines := [.dalle2, .dalle3, .flux, .midjourney, .stableDiffusion]
      allowedMusicModels := [.V3_5, .V4, .V4_5, .V4_5PLUS, .V5]
      maxCreditsPerDay := .unlimited
      commercialLicense := true
      apiAccess := true }

/-- schema.ts `SERVICE_CREDIT_COSTS`. -/
def SERVICE_CREDIT_COSTS : ServiceType → Int
  | .music_generation => 5
  | .video_generation => 10
  | .image_generation => 3
  | .wav_conversion => 2

/-- schema.ts `UNLIMITED_SERVICE_PLANS`. -/
def UNLIMITED_SERVICE_PLANS : ServiceType → List PlanType
  | .music_generation => [.studio, .creator, .all_access]
  | .video_generation => [.all_access]
  | .image_generation => [.all_access]
  | .wav_conversion => [.studio, .creator, .all_access]

/-- storage.ts: `UNLIMITED_SERVICE_PLANS[serviceType].includes(user.planType)`. -/
def hasUnlimitedAccess (serviceType : ServiceType) (planType : PlanType) : Bool :=
  decide (planType ∈ UNLIMITED_SERVICE_PLANS serviceType)

/-- schema.ts `users` table row, restricted to the fields the server reads or
writes (the drizzle bookkeeping columns are carried verbatim). -/
structure User where
  id : String
  email : Option String
  firstName : Option String
  lastName : Option String
  profileImageUrl : Option String
  username : Option String
  vocalGenderPreference : String
  credits : Int
  planType : PlanType
  lastCreditReset : Int
  stripeCustomerId : Option String
  stripeSubscriptionId : Option String
  createdAt : Int
  updatedAt : Int
  deriving DecidableEq

/-- schema.ts `CreditCheckResult` (every field but `allowed` is optional in
the TypeScript interface). -/
inductive CreditReason
  | insufficient_credits
  | unlimited
  | success
  deriving DecidableEq

structure CreditCheckResult where
  allowed : Bool
  reason : Option CreditReason
  currentCredits : Option Int
  requiredCredits : Option Int
  planType : Option PlanType
  deriving DecidableEq

/-- schema.ts `CreditDeductionResult`. -/
structure CreditDeductionResult where
  success : Bool
  newBalance : Int
  amountDeducted : Int
  wasUnlimited : Bool
  error : Option String
  deriving DecidableEq

/-- storage.ts: the template literal
`Insufficient credits. Required: ... , Available: ...`. -/
def insufficientCreditsMsg (required available : Int) : String :=
  "Insufficient credits. Required: " ++ toString required ++
    ", Available: " ++ toString available

/-- storage.ts `MemStorage.checkCredits`, existing-user path (the
user-not-found early return reports `insufficient_credits` without reading
any account, hence is outside this per-account embedding).  The method only
reads the account, so it is embedded as returning the account unchanged. -/
def checkCredits (user : User) (serviceType : ServiceType) :
    CreditCheckResult × User :=
  let requiredCredits := SERVICE_CREDIT_COSTS serviceType
  if hasUnlimitedAccess serviceType user.planType then
    ({ allowed := true
       reason := some .unlimited
       currentCredits := some user.credits
       requiredCredits := some 0
       planType := some user.planType }, user)
  else
    let hasSufficientCredits := decide (requiredCredits ≤ user.credits)
    ({ allowed := hasSufficientCredits
       reason := some (if hasSufficientCredits then .success else .insufficient_credits)
       currentCredits := some user.credits
       requiredCredits := some requiredCredits
       planType := some user.planType }, user)

/-- storage.ts `MemStorage.deductCredits`, existing-user path.  `now` stands
for the `new Date()` written into `updatedAt` on a successful deduction. -/
def deductCredits (user : User) (serviceType : ServiceType) (now : Int) :
    CreditDeductionResult × User :=
  let requiredCredits := SERVICE_CREDIT_COSTS serviceType
  if hasUnlimitedAccess serviceType user.planType then
    ({ success := true
       newBalance := user.credits
       amountDeducted := 0
       wasUnlimited := true
       error := none }, user)
  else if user.credits < requiredCredits then
    ({ success := false
       newBalance := user.credits
       amountDeducted := 0
       wasUnlimited := false
       error := some (insufficientCreditsMsg requiredCredits user.credits) }, user)
  else
    let newCredits := max 0 (user.credits - requiredCredits)
    ({ success := true
       newBalance := newCredits
       amountDeducted := requiredCredits
       wasUnlimited := false
       error := none },
     { user with credits := newCredits, updatedAt := now })

/-- routes.ts `validateMusicModel`:
`PLAN_FEATURES[planType].allowedMusicModels.includes(model)`. -/
def validateMusicModel (planType : PlanType) (model : MusicModel) : Bool :=
  decide (model ∈ (PLAN_FEATURES planType).allowedMusicModels)

/-- routes.ts `validateVideoResolution`. -/
def validateVideoResolution (planType : PlanType) (resolution : VideoResolution) : Bool :=
  decide (resolution ∈ (PLAN_FEATURES planType).allowedVideoResolutions)

/-- routes.ts `validateImageEngine`. -/
def validateImageEngine (planType : PlanType) (engine : ImageEngine) : Bool :=
  decide (engine ∈ (PLAN_FEATURES planType).allowedImageEngines)

/-- Side effects a music-generation handler performs, in order: the
`storage.deductCredits` call and the `fetch` to the external KIE.ai
gateway. -/
inductive HandlerEvent
  | deductCall
  | externalCall
  deriving DecidableEq

/-- The response a music-generation handler commits to (HTTP status paired
with which branch produced it). -/
inductive MusicGenOutcome
  | insufficientCredits
  | modelNotAllowed
  | apiKeyMissing
  | uploadUrlMissing
  | dispatched
  deriving DecidableEq

structure RouteResult where
  outcome : MusicGenOutcome
  user : User
  events : List HandlerEvent
  deriving DecidableEq

/-- routes.ts `POST /api/generate-music` handler (authenticated,
existing-user path), as executed top to bottom:
1. `storage.deductCredits(userId, 'music_generation')`; on failure return
   403 Insufficient credits;
2. `validateMusicModel(userPlan, model)`; on failure return 403 Model not
   allowed;
3. `SUNO_API_KEY` presence check (`apiKeyConfigured`); on failure return 500;
4. `fetch` to the external gateway (the `externalCall` event).
`now` stands for the instant written into `updatedAt` by the deduction. -/
def generateMusicHandler (user : User) (model : MusicModel)
    (apiKeyConfigured : Bool) (now : Int) : RouteResult :=
  let deduction := deductCredits user .music_generation now
  if !deduction.1.success then
    { outcome := .insufficientCredits, user := deduction.2, events := [.deductCall] }
  else if !validateMusicModel user.planType model then
    { outcome := .modelNotAllowed, user := deduction.2, events := [.deductCall] }
  else if !apiKeyConfigured then
    { outcome := .apiKeyMissing, user := deduction.2, events := [.deductCall] }
  else
    { outcome := .dispatched, user := deduction.2,
      events := [.deductCall, .externalCall] }

/-- routes.ts `POST /api/upload-cover-music` handler (authenticated,
existing-user path): deduction, then model validation, then the
`SUNO_API_KEY` check, then the `uploadUrl` presence check, then the external
call. -/
def uploadCoverMusicHandler (user : User) (model : MusicModel)
    (apiKeyConfigured : Bool) (hasUploadUrl : Bool) (now : Int) : RouteResult :=
  let deduction := deductCredits user .music_generation now
  if !deduction.1.success then
    { outcome := .insufficientCredits, user := deduction.2, events := [.deductCall] }
  else if !validateMusicModel user.planType model then
    { outcome := .modelNotAllowed, user := deduction.2, events := [.deductCall] }
  else if !apiKeyConfigured then
    { outcome := .apiKeyMissing, user := deduction.2, events := [.deductCall] }
  else if !hasUploadUrl then
    { outcome := .uploadUrlMissing, user := deduction.2, events := [.deductCall] }
  else
    { outcome := .dispatched, user := deduction.2,
      events := [.deductCall, .externalCall] }

/-- Response of routes.ts `POST /api/user/credits/check-reset` (the JSON
fields the claims are about; the handler additionally echoes a message and
an hours-until-reset figure). -/
structure ResetResponse where
  credits : Int
  resetOccurred : Bool
  deriving DecidableEq

def MS_PER_HOUR : Int := 1000 * 60 * 60

/-- routes.ts `POST /api/user/credits/check-reset` handler (authenticated,
existing-user path).  The source computes
`hoursSinceReset = (now - lastReset) / 3600000` as a float and tests
`hoursSinceReset >= 24`; over the reals that is equivalent to the integer
test `now - lastReset >= 24 * 3600000` used here.  On reset it calls
`storage.updateUserCredits(userId, 50, now)`, which sets `credits := 50`,
`lastCreditReset := now` and refreshes `updatedAt`. -/
def checkResetHandler (user : User) (now : Int) : ResetResponse × User :=
  if user.planType ≠ .free then
    ({ credits := user.credits, resetOccurred := false }, user)
  else if 24 * MS_PER_HOUR ≤ now - user.lastCreditReset then
    ({ credits := 50, resetOccurred := true },
     { user with credits := 50, lastCreditReset := now, updatedAt := now })
  else
    ({ credits := user.credits, resetOccurred := false }, user)

/-- Response branches of routes.ts `POST /api/user/credits/deduct`. -/
inductive DeductEndpointResult
  | insufficient (credits required : Int)
  | unlimitedOk
  | ok (credits deducted : Int)
  deriving DecidableEq

/-- routes.ts `POST /api/user/credits/deduct` handler (authenticated,
existing-user path).  `amount` is `req.body.amount` (the route defaults it
to 5 when the body omits it); the handler performs no sign or magnitude
validation on it.  Free users with `credits < amount` get a 403; paid plans
short-circuit to an unlimited response; otherwise
`newCredits = Math.max(0, credits - amount)` is stored via
`storage.updateUserCredits`. -/
def creditsDeductHandler (user : User) (amount : Int) (now : Int) :
    DeductEndpointResult × User :=
  if user.planType = .free ∧ user.credits < amount then
    (.insufficient user.credits amount, user)
  else if user.planType = .studio ∨ user.planType = .creator ∨
      user.planType = .all_access then
    (.unlimitedOk, user)
  else
    let newCredits := max 0 (user.credits - amount)
    (.ok newCredits amount, { user with credits := newCredits, updatedAt := now })

/-- A ledger operation on one account: a service-typed deduction
(storage.ts `deductCredits`), the client-callable deduction endpoint, or the
daily-reset endpoint, each applied at some instant. -/
inductive LedgerOp
  | serviceDeduct (serviceType : ServiceType) (now : Int)
  | clientDeduct (amount : Int) (now : Int)
  | dailyReset (now : Int)

def applyLedgerOp (user : User) (op : LedgerOp) : User :=
  match op with
  | .serviceDeduct s now => (deductCredits user s now).2
  | .clientDeduct a now => (creditsDeductHandler user a now).2
  | .dailyReset now => (checkResetHandler user now).2

def applyLedgerOps (user : User) (ops : List LedgerOp) : User :=
  ops.foldl applyLedgerOp user

/-- schema.ts `interface CreditBundle`.  `priceUSD` is a dollar amount with
cents (e.g. 4.99); it is carried here in integer cents. -/
structure CreditBundle where
  id : String
  name : String
  credits : Int
  priceCentsUSD : Int
  popular : Option Bool
  bonus : Option Int
  deriving DecidableEq

/-- schema.ts `CREDIT_BUNDLES`. -/
def CREDIT_BUNDLES : List CreditBundle :=
  [ { id := "starter", name := "Starter Pack", credits := 50,
      priceCentsUSD := 499, popular := none, bonus := none },
    { id := "basic", name := "Basic Bundle", credits := 150,
      priceCentsUSD := 1299, popular := none, bonus := some 10 },
    { id := "popular", name := "Popular Choice", credits := 350,
      priceCentsUSD := 2499, popular := some true, bonus := some 50 },
    { id := "mega", name := "Mega Pack", credits := 750,
      priceCentsUSD := 4999, popular := none, bonus := some 150 },
    { id := "ultimate", name := "Ultimate Bundle", credits := 2000,
      priceCentsUSD := 9999, popular := none, bonus := some 500 } ]

/-- Total credits a bundle grants: base plus bonus (spec: "total credits
granted = base + bonus"). -/
def bundleTotalCredits (b : CreditBundle) : Int :=
  b.credits + b.bonus.getD 0

/-- Modelled from the spec: the Payment Reconciliation component
(spec 4.5) is absent from the server sources (only the client checkout page
and the bundle catalog exist); per the spec it keeps a durable record of
already-reconciled payment event identifiers for one account and, before
crediting, checks and records atomically; a replay is a no-op that still
reports success. -/
structure ReconciliationState where
  balance : Int
  processedEvents : List String
  deriving DecidableEq

/-- Modelled from the spec: processing one payment confirmation for a
bundle (spec 4.5): if the event identifier was already reconciled, no-op
and report success; otherwise credit the bundle total and record the
identifier. -/
def reconcilePayment (st : ReconciliationState) (eventId : String)
    (bundle : CreditBundle) : Bool × ReconciliationState :=
  if eventId ∈ st.processedEvents then
    (true, st)
  else
    (true, { balance := st.balance + bundleTotalCredits bundle,
             processedEvents := eventId :: st.processedEvents })

/-- A concrete account used to instantiate witness theorems. -/
def mkUser (plan : PlanType) (credits : Int) (lastReset : Int) : User :=
  { id := "u1"
    email := none
    firstName := none
    lastName := none
    profileImageUrl := none
    username := none
    vocalGenderPreference := "m"
    credits := credits
    planType := plan
    lastCreditReset := lastReset
    stripeCustomerId := none
    stripeSubscriptionId := none
    createdAt := 0
    updatedAt := 0 }

/-- Claim C3: for an existing account whose plan is not unlimited-exempt for
the operation kind, when the balance covers the cost `deductCredits`
subtracts exactly the cost in one step and returns success, the cost as
`amountDeducted`, and the old balance minus the cost as `newBalance`. -/
theorem deductCredits_sufficient (u : User) (s : ServiceType) (now : Int)
    (hUnl : u.planType ∉ UNLIMITED_SERVICE_PLANS s)
    (hBal : SERVICE_CREDIT_COSTS s ≤ u.credits) :
    deductCredits u s now =
      ({ success := true
         newBalance := u.credits - SERVICE_CREDIT_COSTS s
         amountDeducted := SERVICE_CREDIT_COSTS s
         wasUnlimited := false
         error := none },
       { u with credits := u.credits - SERVICE_CREDIT_COSTS s, updatedAt := now }) := by
  have hmax : max 0 (u.credits - SERVICE_CREDIT_COSTS s) =
      u.credits - SERVICE_CREDIT_COSTS s := by omega
  simp [deductCredits, hasUnlimitedAccess, hUnl, not_lt.mpr hBal, hmax]

/-- Witness for C3: a free account with balance 50 pays the 5-credit music
cost and ends at balance 45. -/
theorem deductCredits_sufficient_witness :
    deductCredits (mkUser .free 50 0) .music_generation 7 =
      ({ success := true, newBalance := 45, amountDeducted := 5,
         wasUnlimited := false, error := none },
       { mkUser .free 50 0 with credits := 45, updatedAt := 7 }) := by
  have h := deductCredits_sufficient (mkUser .free 50 0) .music_generation 7
    (by decide) (by decide)
  simpa using h

/-- Claim C4: for an existing account whose plan is not unlimited-exempt for
the operation kind, when the balance is strictly below the cost
`deductCredits` fails with a descriptive error, deducts nothing, and leaves
the account exactly unchanged. -/
theorem deductCredits_insufficient (u : User) (s : ServiceType) (now : Int)
    (hUnl : u.planType ∉ UNLIMITED_SERVICE_PLANS s)
    (hBal : u.credits < SERVICE_CREDIT_COSTS s) :
    deductCredits u s now =
      ({ success := false
         newBalance := u.credits
         amountDeducted := 0
         wasUnlimited := false
         error := some (insufficientCreditsMsg (SERVICE_CREDIT_COSTS s) u.credits) },
       u) := by
  simp [deductCredits, hasUnlimitedAccess, hUnl, hBal]

/-- Witness for C4: a free account with balance 3 fails a 5-credit music
deduction and keeps balance 3. -/
theorem deductCredits_insufficient_witness :
    deductCredits (mkUser .free 3 0) .music_generation 7 =
      ({ success := false, newBalance := 3, amountDeducted := 0,
         wasUnlimited := false,
         error := some "Insufficient credits. Required: 5, Available: 3" },
       mkUser .free 3 0) := by
  have h := deductCredits_insufficient (mkUser .free 3 0) .music_generation 7
    (by decide) (by decide)
  simpa [insufficientCreditsMsg] using h

/-- Claim C5: for an existing account whose plan is unlimited-exempt for
the operation kind, `deductCredits` succeeds with `wasUnlimited = true` and
`amountDeducted = 0`, and the account record is returned entirely
unchanged. -/
theorem deductCredits_unlimited (u : User) (s : ServiceType) (now : Int)
    (hUnl : u.planType ∈ UNLIMITED_SERVICE_PLANS s) :
    deductCredits u s now =
      ({ success := true
         newBalance := u.credits
         amountDeducted := 0
         wasUnlimited := true
         error := none },
       u) := by
  simp [deductCredits, hasUnlimitedAccess, hUnl]

/-- Witness for C5: a studio account with balance 10 performs a music
deduction; the balance is untouched and `wasUnlimited = true`. -/
theorem deductCredits_unlimited_witness :
    deductCredits (mkUser .studio 10 0) .music_generation 7 =
      ({ success := true, newBalance := 10, amountDeducted := 0,
         wasUnlimited := true, error := none },
       mkUser .studio 10 0) := by
  exact deductCredits_unlimited (mkUser .studio 10 0) .music_generation 7 (by decide)

/-- One ledger operation keeps the balance non-negative. -/
theorem applyLedgerOp_nonneg (u : User) (op : LedgerOp) (h : 0 ≤ u.credits) :
    0 ≤ (applyLedgerOp u op).credits := by
  cases op with
  | serviceDeduct s now =>
    simp only [applyLedgerOp, deductCredits]
    split
    · exact h
    · split
      · exact h
      · simp
  | clientDeduct a now =>
    simp only [applyLedgerOp, creditsDeductHandler]
    split
    · exact h
    · split
      · exact h
      · simp
  | dailyReset now =>
    simp only [applyLedgerOp, checkResetHandler]
    split
    · exact h
    · split
      · simp
      · exact h

/-- Claim C6: starting from a non-negative balance, the balance is still a
non-negative integer after every finite sequence of ledger operations
(service deductions, client-endpoint deductions and daily resets); since
the sequence is universally quantified, this covers every intermediate
prefix as well. -/
theorem creditBalance_nonneg (u : User) (ops : List LedgerOp)
    (h : 0 ≤ u.credits) : 0 ≤ (applyLedgerOps u ops).credits := by
  induction ops generalizing u with
  | nil => simpa [applyLedgerOps] using h
  | cons op rest ih =>
    have hstep := applyLedgerOp_nonneg u op h
    simpa [applyLedgerOps, List.foldl_cons] using ih (applyLedgerOp u op) hstep

/-- Witness for C6: a free account at balance 3 stays non-negative through a
music deduction, a client deduction of 5, and a daily reset. -/
theorem creditBalance_nonneg_witness :
    0 ≤ (applyLedgerOps (mkUser .free 3 0)
      [.serviceDeduct .music_generation 1, .clientDeduct 5 2,
       .dailyReset (25 * MS_PER_HOUR)]).credits :=
  creditBalance_nonneg (mkUser .free 3 0)
    [.serviceDeduct .music_generation 1, .clientDeduct 5 2,
     .dailyReset (25 * MS_PER_HOUR)] (by decide)

/-- Claim C7: the daily reset only acts on the free tier (the one metered
tier); for a free account it sets the balance to the plan's daily allowance
of 50 (not additively) and stamps `lastCreditReset` when at least 24 hours
have elapsed, does nothing earlier, and a second call within 24 hours of a
reset is a no-op. -/
theorem daily_reset_spec (u : User) (now now2 : Int) :
    (u.planType ≠ .free →
      checkResetHandler u now = ({ credits := u.credits, resetOccurred := false }, u)) ∧
    (u.planType = .free →
      ((PLAN_FEATURES PlanType.free).maxCreditsPerDay = .metered 50) ∧
      (24 * MS_PER_HOUR ≤ now - u.lastCreditReset →
        checkResetHandler u now =
          ({ credits := 50, resetOccurred := true },
           { u with credits := 50, lastCreditReset := now, updatedAt := now }) ∧
        (now2 - now < 24 * MS_PER_HOUR →
          checkResetHandler { u with credits := 50, lastCreditReset := now, updatedAt := now } now2 =
            ({ credits := 50, resetOccurred := false },
             { u with credits := 50, lastCreditReset := now, updatedAt := now }))) ∧
      (now - u.lastCreditReset < 24 * MS_PER_HOUR →
        checkResetHandler u now =
          ({ credits := u.credits, resetOccurred := false }, u))) := by
  refine ⟨fun hPlan => ?_, fun hPlan => ⟨rfl, fun hElapsed => ⟨?_, fun hSoon => ?_⟩,
    fun hEarly => ?_⟩⟩
  · simp [checkResetHandler, hPlan]
  · simp [checkResetHandler, hPlan, hElapsed]
  · simp [checkResetHandler, hPlan, not_le.mpr hSoon]
  · simp [checkResetHandler, hPlan, not_le.mpr hEarly]

/-- Witness for C7: a free account at balance 7 whose last reset was at
time 0 is reset to 50 at hour 30; a second call at hour 40 is a no-op; a
studio account is never reset. -/
theorem daily_reset_spec_witness :
    checkResetHandler (mkUser .free 7 0) (30 * MS_PER_HOUR) =
      ({ credits := 50, resetOccurred := true },
       { mkUser .free 7 0 with
         credits := 50
         lastCreditReset := 30 * MS_PER_HOUR
         updatedAt := 30 * MS_PER_HOUR }) ∧
    checkResetHandler
        { mkUser .free 7 0 with
          credits := 50
          lastCreditReset := 30 * MS_PER_HOUR
          updatedAt := 30 * MS_PER_HOUR }
        (40 * MS_PER_HOUR) =
      ({ credits := 50, resetOccurred := false },
       { mkUser .free 7 0 with
         credits := 50
         lastCreditReset := 30 * MS_PER_HOUR
         updatedAt := 30 * MS_PER_HOUR }) ∧
    checkResetHandler (mkUser .studio 7 0) (30 * MS_PER_HOUR) =
      ({ credits := 7, resetOccurred := false }, mkUser .studio 7 0) := by
  have h := daily_reset_spec (mkUser .free 7 0) (30 * MS_PER_HOUR) (40 * MS_PER_HOUR)
  have hfree := h.2 rfl
  have helapsed := hfree.2.1 (by decide)
  have hstudio := (daily_reset_spec (mkUser .studio 7 0) (30 * MS_PER_HOUR) 0).1 (by decide)
  exact ⟨helapsed.1, helapsed.2 (by decide), hstudio⟩

/-- Claim C9: `checkCredits` is read-only, answers `unlimited`/allowed for
exempt plans, `success`/allowed exactly when the balance covers the cost,
and `insufficient_credits`/denied when it does not. -/
theorem checkCredits_spec (u : User) (s : ServiceType) :
    (checkCredits u s).2 = u ∧
    (u.planType ∈ UNLIMITED_SERVICE_PLANS s →
      (checkCredits u s).1 =
        { allowed := true, reason := some .unlimited,
          currentCredits := some u.credits, requiredCredits := some 0,
          planType := some u.planType }) ∧
    (u.planType ∉ UNLIMITED_SERVICE_PLANS s →
      (SERVICE_CREDIT_COSTS s ≤ u.credits →
        (checkCredits u s).1 =
          { allowed := true, reason := some .success,
            currentCredits := some u.credits,
            requiredCredits := some (SERVICE_CREDIT_COSTS s),
            planType := some u.planType }) ∧
      (u.credits < SERVICE_CREDIT_COSTS s →
        (checkCredits u s).1 =
          { allowed := false, reason := some .insufficient_credits,
            currentCredits := some u.credits,
            requiredCredits := some (SERVICE_CREDIT_COSTS s),
            planType := some u.planType })) := by
  refine ⟨?_, fun hUnl => ?_, fun hUnl => ⟨fun hBal => ?_, fun hBal => ?_⟩⟩
  · simp only [checkCredits]
    split <;> rfl
  · simp [checkCredits, hasUnlimitedAccess, hUnl]
  · simp [checkCredits, hasUnlimitedAccess, hUnl, hBal]
  · simp [checkCredits, hasUnlimitedAccess, hUnl, not_le.mpr hBal]

/-- Witness for C9: concrete answers for a studio account (unlimited), a
free account with 50 credits (success) and a free account with 3 credits
(insufficient) on the 5-credit music operation. -/
theorem checkCredits_spec_witness :
    (checkCredits (mkUser .studio 10 0) .music_generation).1 =
      { allowed := true, reason := some .unlimited, currentCredits := some 10,
        requiredCredits := some 0, planType := some .studio } ∧
    (checkCredits (mkUser .free 50 0) .music_generation).1 =
      { allowed := true, reason := some .success, currentCredits := some 50,
        requiredCredits := some 5, planType := some .free } ∧
    (checkCredits (mkUser .free 3 0) .music_generation).1 =
      { allowed := false, reason := some .insufficient_credits,
        currentCredits := some 3, requiredCredits := some 5,
        planType := some .free } := by
  refine ⟨(checkCredits_spec (mkUser .studio 10 0) .music_generation).2.1 (by decide),
    ((checkCredits_spec (mkUser .free 50 0) .music_generation).2.2 (by decide)).1 (by decide),
    ((checkCredits_spec (mkUser .free 3 0) .music_generation).2.2 (by decide)).2 (by decide)⟩

/-- Claim C10: the client-callable deduction endpoint takes the amount from
the request body unvalidated; for a free account it rejects exactly when
the balance is below the amount, otherwise stores `max 0 (balance - amount)`,
and for every negative amount the check passes and the balance strictly
increases to `balance - amount`. -/
theorem client_deduct_unvalidated (u : User) (a now : Int)
    (hPlan : u.planType = .free) (hNonneg : 0 ≤ u.credits) :
    ((creditsDeductHandler u a now).1 = .insufficient u.credits a ↔ u.credits < a) ∧
    (a ≤ u.credits →
      creditsDeductHandler u a now =
        (.ok (max 0 (u.credits - a)) a,
         { u with credits := max 0 (u.credits - a), updatedAt := now })) ∧
    (a < 0 →
      (creditsDeductHandler u a now).1 = .ok (u.credits - a) a ∧
      (creditsDeductHandler u a now).2.credits = u.credits - a ∧
      u.credits < (creditsDeductHandler u a now).2.credits) := by
  by_cases hlt : u.credits < a
  · refine ⟨?_, fun hle => absurd hlt (not_lt.mpr hle), fun hneg => absurd hlt (by omega)⟩
    simp [creditsDeductHandler, hPlan, hlt]
  · have hmax : max 0 (u.credits - a) = u.credits - a := by
      rcases not_lt.mp hlt with h
      omega
    refine ⟨?_, fun hle => ?_, fun hneg => ?_⟩
    · simp [creditsDeductHandler, hPlan, hlt]
    · simp [creditsDeductHandler, hPlan, hlt]
    · have hgt : u.credits < u.credits - a := by omega
      simp [creditsDeductHandler, hPlan, hlt, hmax, hgt]

/-- Witness for C10: a free account at balance 10 sends amount -3; the
check passes and the balance rises to 13. -/
theorem client_deduct_unvalidated_witness :
    (¬ (creditsDeductHandler (mkUser .free 10 0) (-3) 9).1 =
        DeductEndpointResult.insufficient 10 (-3)) ∧
    (creditsDeductHandler (mkUser .free 10 0) (-3) 9).1 = .ok 13 (-3) ∧
    (creditsDeductHandler (mkUser .free 10 0) (-3) 9).2.credits = 13 ∧
    (10 : Int) < (creditsDeductHandler (mkUser .free 10 0) (-3) 9).2.credits := by
  have h := client_deduct_unvalidated (mkUser .free 10 0) (-3) 9 rfl (by decide)
  have hneg := h.2.2 (by decide)
  refine ⟨fun heq => absurd (h.1.mp heq) (by decide), ?_, ?_, ?_⟩
  · simpa [mkUser] using hneg.1
  · simpa [mkUser] using hneg.2.1
  · simpa [mkUser] using hneg.2.2

/-- Claim C8: in both paid music handlers the deduction call is the first
side effect, the external gateway is invoked only when the deduction
succeeded, and a failed deduction yields the insufficient-credits error
response with no external call. -/
theorem deduction_precedes_external (u : User) (m : MusicModel)
    (k urlOk : Bool) (now : Int) :
    ((generateMusicHandler u m k now).events.head? = some .deductCall ∧
     (HandlerEvent.externalCall ∈ (generateMusicHandler u m k now).events →
       (deductCredits u .music_generation now).1.success = true) ∧
     ((deductCredits u .music_generation now).1.success = false →
       (generateMusicHandler u m k now).outcome = .insufficientCredits ∧
       HandlerEvent.externalCall ∉ (generateMusicHandler u m k now).events)) ∧
    ((uploadCoverMusicHandler u m k urlOk now).events.head? = some .deductCall ∧
     (HandlerEvent.externalCall ∈ (uploadCoverMusicHandler u m k urlOk now).events →
       (deductCredits u .music_generation now).1.success = true) ∧
     ((deductCredits u .music_generation now).1.success = false →
       (uploadCoverMusicHandler u m k urlOk now).outcome = .insufficientCredits ∧
       HandlerEvent.externalCall ∉ (uploadCoverMusicHandler u m k urlOk now).events)) := by
  cases hs : (deductCredits u .music_generation now).1.success with
  | false =>
    simp [generateMusicHandler, uploadCoverMusicHandler, hs]
  | true =>
    refine ⟨⟨?_, fun _ => rfl, fun hf => absurd hf (by decide)⟩,
      ?_, fun _ => rfl, fun hf => absurd hf (by decide)⟩
    · simp only [generateMusicHandler, hs, Bool.not_true, Bool.false_eq_true,
        if_false]
      split
      · rfl
      · split
        · rfl
        · rfl
    · simp only [uploadCoverMusicHandler, hs, Bool.not_true, Bool.false_eq_true,
        if_false]
      split
      · rfl
      · split
        · rfl
        · split
          · rfl
          · rfl

/-- Witness for C8: a free account with balance 3 fails the deduction in
both handlers; neither reaches the external gateway. -/
theorem deduction_precedes_external_witness :
    (generateMusicHandler (mkUser .free 3 0) .V4 true 9).outcome =
        .insufficientCredits ∧
    HandlerEvent.externalCall ∉
      (generateMusicHandler (mkUser .free 3 0) .V4 true 9).events ∧
    (uploadCoverMusicHandler (mkUser .free 3 0) .V4 true true 9).outcome =
        .insufficientCredits ∧
    HandlerEvent.externalCall ∉
      (uploadCoverMusicHandler (mkUser .free 3 0) .V4 true true 9).events := by
  have h := deduction_precedes_external (mkUser .free 3 0) .V4 true true 9
  have hGen := h.1.2.2 (by decide)
  have hCov := h.2.2.2 (by decide)
  exact ⟨hGen.1, hGen.2, hCov.1, hCov.2⟩

/-- Claim C1 (code evaluation at the failing input): a free account with
balance 50 requesting the disallowed model V5 on either paid music endpoint
is rejected with the model-not-allowed response, yet its balance has
dropped from 50 to 45 — the deduction ran before the entitlement check, so
the disallowed request consumed credits, contradicting the claim. -/
theorem disallowed_model_consumes_credits :
    (generateMusicHandler (mkUser .free 50 0) .V5 true 9).outcome =
        .modelNotAllowed ∧
    (generateMusicHandler (mkUser .free 50 0) .V5 true 9).user.credits = 45 ∧
    (uploadCoverMusicHandler (mkUser .free 50 0) .V5 true true 9).outcome =
        .modelNotAllowed ∧
    (uploadCoverMusicHandler (mkUser .free 50 0) .V5 true true 9).user.credits = 45 ∧
    (mkUser .free 50 0).credits = 50 ∧
    validateMusicModel .free .V5 = false := by
  decide

/-- Claim C2: reconciling a fresh payment event credits the bundle's
total (base plus bonus) exactly once and records the identifier; replaying
the same identifier is a no-op that still reports success; the "popular"
bundle of the catalog totals 350 + 50 = 400 credits. -/
theorem reconcile_idempotent (st : ReconciliationState) (e : String)
    (b : CreditBundle) (h : e ∉ st.processedEvents) :
    (reconcilePayment st e b).1 = true ∧
    (reconcilePayment st e b).2.balance = st.balance + bundleTotalCredits b ∧
    reconcilePayment (reconcilePayment st e b).2 e b =
      (true, (reconcilePayment st e b).2) ∧
    (CREDIT_BUNDLES.find? (fun bd => bd.id == "popular")).map bundleTotalCredits =
      some 400 := by
  refine ⟨?_, ?_, ?_, by decide⟩
  · simp [reconcilePayment, h]
  · simp [reconcilePayment, h]
  · simp [reconcilePayment, h, List.mem_cons]

/-- Witness for C2: the payment event "evt_1" for the popular bundle,
processed twice from an empty reconciliation state, yields balance 400 and
a successful no-op second run. -/
theorem reconcile_idempotent_witness :
    (reconcilePayment { balance := 0, processedEvents := [] } "evt_1"
        { id := "popular", name := "Popular Choice", credits := 350,
          priceCentsUSD := 2499, popular := some true, bonus := some 50 }).1 = true ∧
    (reconcilePayment { balance := 0, processedEvents := [] } "evt_1"
        { id := "popular", name := "Popular Choice", credits := 350,
          priceCentsUSD := 2499, popular := some true, bonus := some 50 }).2.balance =
      0 + 400 ∧
    reconcilePayment
        (reconcilePayment { balance := 0, processedEvents := [] } "evt_1"
          { id := "popular", name := "Popular Choice", credits := 350,
            priceCentsUSD := 2499, popular := some true, bonus := some 50 }).2
        "evt_1"
        { id := "popular", name := "Popular Choice", credits := 350,
          priceCentsUSD := 2499, popular := some true, bonus := some 50 } =
      (true,
       (reconcilePayment { balance := 0, processedEvents := [] } "evt_1"
          { id := "popular", name := "Popular Choice", credits := 350,
            priceCentsUSD := 2499, popular := some true, bonus := some 50 }).2) := by
  have h := reconcile_idempotent { balance := 0, processedEvents := [] } "evt_1"
    { id := "popular", name := "Popular Choice", credits := 350,
      priceCentsUSD := 2499, popular := some true, bonus := some 50 }
    (by simp)
  exact ⟨h.1, by simpa [bundleTotalCredits] using h.2.1, h.2.2.1⟩

end AetherWave
